import Mathlib

/-!
Shallow embedding of the capital-pool, claims-settlement and risk-scoring
core of the solana_insurance_protocol program
(src/programs/solana_insurance_protocol/src/{capital_management,claims,risk_assessment,lib}.rs),
together with theorems settling the frozen claims about it.

Machine integers are modelled as `Nat` (for `u64`/`u8`/`u16`) and `Int`
(for `i64`).  Rust `checked_add`/`checked_sub` become `Option`-valued
operations; a `.unwrap()` on a failed checked operation, i.e. a panic that
aborts the whole instruction, is modelled by the embedding function
returning `none`.  Unchecked Rust arithmetic (`*`, `-`, `+` on machine
integers without `checked_`) is modelled with an explicit wrap `% 2^64`
(resp. two's-complement wrap for `i64`), the release-mode semantics of the
source language.  Anchor `require!(c, e)` is an early `return Err(e)`:
mutations of in-memory account structs performed before the failing
`require!` are kept in the returned records, and the error is reported in
a `result` field, so that both the function-level behaviour and the
transaction-level behaviour (host rolls back everything on error) can be
stated.
-/

namespace SolanaInsurance

/-- Modulus of 64-bit unsigned machine arithmetic. -/
def U64_MOD : Nat := 18446744073709551616

/-- Modulus of 8-bit unsigned machine arithmetic. -/
def U8_MOD : Nat := 256

/-- Rust `u64::checked_add`: the sum when it fits in 64 bits, `none` on overflow. -/
def checkedAdd (a b : Nat) : Option Nat :=
  if a + b < U64_MOD then some (a + b) else none

/-- Rust `u64::checked_sub`: the difference when no underflow, `none` otherwise. -/
def checkedSub (a b : Nat) : Option Nat :=
  if b ≤ a then some (a - b) else none

/-- Two's-complement wrap of an integer into the `i64` range, the semantics of
unchecked `i64` subtraction in the source. -/
def wrapI64 (z : Int) : Int :=
  (z + 9223372036854775808) % 18446744073709551616 - 9223372036854775808

/-- Error codes of the program (lib.rs, `enum ErrorCode`). -/
inductive ErrorCode where
  | ProtocolNotActive
  | InsufficientPremium
  | PolicyExpired
  | PolicyAlreadyClaimed
  | UnauthorizedAccess
  | InvalidPoolType
  | InsufficientPoolCapital
  | InsufficientProviderCapital
  | PolicyNotActive
  | UnauthorizedClaim
  | ExcessClaimAmount
  | UnauthorizedResolver
  | ClaimAlreadyResolved
  | InvalidAnomalyType
  | InvalidSeverity
  deriving DecidableEq, Repr

/-- Pool type constant (capital_management.rs). -/
def CAPITAL_POOL_LOW_RISK : Nat := 1

/-- Pool type constant (capital_management.rs). -/
def CAPITAL_POOL_MEDIUM_RISK : Nat := 2

/-- Pool type constant (capital_management.rs). -/
def CAPITAL_POOL_HIGH_RISK : Nat := 3

/-- `CapitalPool` account (capital_management.rs).  `Pubkey` fields are
modelled as opaque `Nat` identifiers. -/
structure CapitalPool where
  pool_type : Nat
  total_capital : Nat
  available_capital : Nat
  reserved_capital : Nat
  yield_rate_bps : Nat
  token_mint : Nat
  token_account : Nat
  authority : Nat
  bump : Nat
  deriving DecidableEq, Repr

/-- `CapitalProvider` account (capital_management.rs). -/
structure CapitalProvider where
  owner : Nat
  capital_amount : Nat
  pool : Nat
  rewards_earned : Nat
  deposit_time : Int
  bump : Nat
  deriving DecidableEq, Repr

/-- `Policy` account (lib.rs). -/
structure Policy where
  insured : Nat
  protocol : Nat
  coverage_amount : Nat
  premium_amount : Nat
  start_time : Int
  end_time : Int
  is_active : Bool
  is_claimed : Bool
  bump : Nat
  deriving DecidableEq, Repr

/-- `Claim` account (claims.rs). -/
structure Claim where
  policy : Nat
  claimant : Nat
  amount : Nat
  evidence : String
  submitted_time : Int
  status : Nat
  resolution_time : Int
  resolver : Nat
  resolution_notes : String
  bump : Nat
  deriving DecidableEq, Repr

/-- Claim status constant (claims.rs). -/
def CLAIM_STATUS_PENDING : Nat := 0

/-- Claim status constant (claims.rs). -/
def CLAIM_STATUS_APPROVED : Nat := 1

/-- Claim status constant (claims.rs). -/
def CLAIM_STATUS_REJECTED : Nat := 2

/-- `initialize_capital_pool` (capital_management.rs lines 56-81): rejects a
tier outside {1,2,3} with `InvalidPoolType`, otherwise creates a zeroed pool. -/
def initialize_capital_pool (pool_type yield_rate_bps token_mint token_account
    authority bump : Nat) : Except ErrorCode CapitalPool :=
  if pool_type = CAPITAL_POOL_LOW_RISK ∨ pool_type = CAPITAL_POOL_MEDIUM_RISK ∨
      pool_type = CAPITAL_POOL_HIGH_RISK then
    Except.ok
      { pool_type := pool_type
        total_capital := 0
        available_capital := 0
        reserved_capital := 0
        yield_rate_bps := yield_rate_bps
        token_mint := token_mint
        token_account := token_account
        authority := authority
        bump := bump }
  else
    Except.error ErrorCode.InvalidPoolType

/-- `provide_capital` (capital_management.rs lines 83-117): initializes a fresh
`CapitalProvider` record (the Anchor `init` constraint guarantees the account
did not exist) and credits the pool's `total_capital` and `available_capital`
with `checked_add` (a failed `unwrap` aborts: `none`).  The token transfer is
an external collaborator assumed to succeed on the success path. -/
def provide_capital (pool : CapitalPool) (pool_key owner amount : Nat)
    (now : Int) (bump : Nat) : Option (CapitalProvider × CapitalPool) :=
  match checkedAdd pool.total_capital amount,
        checkedAdd pool.available_capital amount with
  | some total, some avail =>
      some
        ({ owner := owner
           capital_amount := amount
           pool := pool_key
           rewards_earned := 0
           deposit_time := now
           bump := bump },
         { pool with total_capital := total, available_capital := avail })
  | _, _ => none

/-- Result of `withdraw_capital`: the (possibly partially mutated) provider and
pool records, the outcome (`none` = `Ok`, `some e` = the `require!` error
`e`), and whether the provider account was closed (full withdrawal). -/
structure WithdrawResult where
  provider : CapitalProvider
  pool : CapitalPool
  result : Option ErrorCode
  retired : Bool
  deriving DecidableEq, Repr

/-- The zeroed provider record left behind when `withdraw_capital` closes the
account (capital_management.rs lines 177-194 zero every byte of the data). -/
def zeroedProvider : CapitalProvider :=
  { owner := 0
    capital_amount := 0
    pool := 0
    rewards_earned := 0
    deposit_time := 0
    bump := 0 }

/-- Yield computation of `withdraw_capital` (capital_management.rs lines
127-133): elapsed time by unchecked `i64` subtraction, whole days floored with
a floor of one day, and `(capital_amount * yield_rate_bps) / 10000 / 365 *
days_held` in unchecked `u64` arithmetic (wrapping at each multiplication,
truncating at each division). -/
def accruedRewards (provider : CapitalProvider) (pool : CapitalPool)
    (now : Int) : Nat :=
  let time_held : Int := wrapI64 (now - provider.deposit_time)
  let days_held : Nat := (max (time_held.tdiv 86400) 1).toNat
  let annual_yield : Nat := provider.capital_amount * pool.yield_rate_bps % U64_MOD / 10000
  let daily_yield : Nat := annual_yield / 365
  daily_yield * days_held % U64_MOD

/-- `withdraw_capital` (capital_management.rs lines 119-197).  The elapsed-time
subtraction and the yield multiplication/divisions are unchecked in the source
(lines 128-133), hence modelled with wrapping (`accruedRewards`);
`rewards_earned` accrual and the three balance decrements use
`checked_add`/`checked_sub` with `.unwrap()` (panic = `none`).  The two
`require!` checks run after the rewards accrual, so a failed check returns the
provider with `rewards_earned` already updated. -/
def withdraw_capital (provider : CapitalProvider) (pool : CapitalPool)
    (amount : Nat) (now : Int) : Option WithdrawResult :=
  match checkedAdd provider.rewards_earned (accruedRewards provider pool now) with
  | none => none
  | some re =>
    let provider1 := { provider with rewards_earned := re }
    if pool.available_capital < amount then
      some ⟨provider1, pool, some ErrorCode.InsufficientPoolCapital, false⟩
    else if provider1.capital_amount < amount then
      some ⟨provider1, pool, some ErrorCode.InsufficientProviderCapital, false⟩
    else
      match checkedSub provider1.capital_amount amount,
            checkedSub pool.total_capital amount,
            checkedSub pool.available_capital amount with
      | some capital, some total, some avail =>
          let pool1 := { pool with total_capital := total, available_capital := avail }
          if capital = 0 then
            some ⟨zeroedProvider, pool1, none, true⟩
          else
            some ⟨{ provider1 with capital_amount := capital }, pool1, none, false⟩
      | _, _, _ => none

/-- `submit_claim` (claims.rs lines 38-71). -/
def submit_claim (policy : Policy) (policy_key claimant amount : Nat)
    (evidence : String) (now : Int) (bump : Nat) : Except ErrorCode Claim :=
  if ¬policy.is_active then Except.error ErrorCode.PolicyNotActive
  else if policy.end_time ≤ now then Except.error ErrorCode.PolicyExpired
  else if policy.is_claimed then Except.error ErrorCode.PolicyAlreadyClaimed
  else if claimant ≠ policy.insured then Except.error ErrorCode.UnauthorizedClaim
  else if policy.coverage_amount < amount then Except.error ErrorCode.ExcessClaimAmount
  else
    Except.ok
      { policy := policy_key
        claimant := claimant
        amount := amount
        evidence := evidence
        submitted_time := now
        status := CLAIM_STATUS_PENDING
        resolution_time := 0
        resolver := 0
        resolution_notes := ""
        bump := bump }

/-- Result of `resolve_claim`: the (possibly partially mutated) claim, policy
and pool records and the outcome (`none` = `Ok`, `some e` = error `e`). -/
structure ResolveResult where
  claim : Claim
  policy : Policy
  pool : CapitalPool
  result : Option ErrorCode
  deriving DecidableEq, Repr

/-- `resolve_claim` (claims.rs lines 73-135).  Mirrors the source order:
authority check, pending check, unconditional claim mutation, then on approval
the policy mutation, the pool-capital check, and the pool update (checked ops;
panic = `none`).  A failing `require!` after a mutation keeps that mutation in
the returned records, exactly as the Rust function leaves the in-memory
account structs. -/
def resolve_claim (claim : Claim) (policy : Policy) (pool : CapitalPool)
    (resolver protocol_authority : Nat) (approve : Bool)
    (resolution_notes : String) (now : Int) : Option ResolveResult :=
  if resolver ≠ protocol_authority then
    some ⟨claim, policy, pool, some ErrorCode.UnauthorizedResolver⟩
  else if claim.status ≠ CLAIM_STATUS_PENDING then
    some ⟨claim, policy, pool, some ErrorCode.ClaimAlreadyResolved⟩
  else
    let claim1 :=
      { claim with
        status := if approve then CLAIM_STATUS_APPROVED else CLAIM_STATUS_REJECTED
        resolution_time := now
        resolver := resolver
        resolution_notes := resolution_notes }
    if approve then
      let policy1 := { policy with is_claimed := true }
      if pool.available_capital < claim.amount then
        some ⟨claim1, policy1, pool, some ErrorCode.InsufficientPoolCapital⟩
      else
        match checkedSub pool.available_capital claim.amount,
              checkedAdd pool.reserved_capital claim.amount with
        | some avail, some reserved =>
            some ⟨claim1, policy1,
              { pool with available_capital := avail, reserved_capital := reserved },
              none⟩
        | _, _ => none
    else
      some ⟨claim1, policy, pool, none⟩

/-- `assess_code_risk` (risk_assessment.rs lines 14-33).  The three factors
are `u8` values and their sum `audit_factor + bounty_factor + complexity_factor`
is computed in `u8`; it can reach 300, so the addition may overflow 8-bit
arithmetic.  Per the program's failure policy (overflow is fatal), the
overflowing sum is modelled as an abort (`none`). -/
def assess_code_risk (audit_count bug_bounty_size complexity_score : Nat) :
    Option Nat :=
  let audit_factor := 100 - min audit_count 5 * 20
  let bounty_factor :=
    if bug_bounty_size = 0 then 100
    else if bug_bounty_size ≤ 50000 then 75
    else if bug_bounty_size ≤ 250000 then 50
    else if bug_bounty_size ≤ 1000000 then 25
    else 0
  let complexity_factor := min complexity_score 100
  if audit_factor + bounty_factor + complexity_factor < U8_MOD then
    some ((audit_factor + bounty_factor + complexity_factor) / 3)
  else none

/-- `calculate_premium_rate` (risk_assessment.rs lines 92-101): tiered lookup
on the (0-255) risk score. -/
def calculate_premium_rate (risk_score : Nat) : Nat :=
  if risk_score ≤ 25 then 25
  else if risk_score ≤ 50 then 50
  else if risk_score ≤ 75 then 100
  else 200

/-- `calculate_premium_amount` (risk_assessment.rs lines 103-115): unchecked
`u64` arithmetic, dividing by 10000 and then by 365 before multiplying by the
duration, truncating at each division. -/
def calculate_premium_amount (coverage_amount premium_rate_bps duration_days : Nat) :
    Nat :=
  let annual_premium := coverage_amount * premium_rate_bps % U64_MOD / 10000
  let daily_premium := annual_premium / 365
  daily_premium * duration_days % U64_MOD

/-- Inverting a successful `checkedAdd`. -/
theorem checkedAdd_eq_some {a b c : Nat} (h : checkedAdd a b = some c) :
    c = a + b ∧ a + b < U64_MOD := by
  unfold checkedAdd at h
  split_ifs at h with h1
  · exact ⟨(Option.some.inj h).symm, h1⟩

/-- Inverting a successful `checkedSub`. -/
theorem checkedSub_eq_some {a b c : Nat} (h : checkedSub a b = some c) :
    c = a - b ∧ b ≤ a := by
  unfold checkedSub at h
  split_ifs at h with h1
  · exact ⟨(Option.some.inj h).symm, h1⟩

/-- A successful `checkedAdd` under an explicit bound. -/
theorem checkedAdd_of_lt {a b : Nat} (h : a + b < U64_MOD) :
    checkedAdd a b = some (a + b) := by
  unfold checkedAdd
  simp [h]

/-- A successful `checkedSub` under an explicit bound. -/
theorem checkedSub_of_le {a b : Nat} (h : b ≤ a) :
    checkedSub a b = some (a - b) := by
  unfold checkedSub
  simp [h]

/-- One successful pool-mutating operation of the program, projected to its
effect on the `CapitalPool` record: a successful `provide_capital`, a
successful `withdraw_capital`, or a successful `resolve_claim`. -/
inductive PoolStep : CapitalPool → CapitalPool → Prop where
  | provide (pool : CapitalPool) (pool_key owner amount : Nat) (now : Int)
      (bump : Nat) (prov : CapitalProvider) (pool' : CapitalPool)
      (h : provide_capital pool pool_key owner amount now bump = some (prov, pool')) :
      PoolStep pool pool'
  | withdraw (provider : CapitalProvider) (pool : CapitalPool) (amount : Nat)
      (now : Int) (r : WithdrawResult)
      (h : withdraw_capital provider pool amount now = some r)
      (hok : r.result = none) : PoolStep pool r.pool
  | resolve (claim : Claim) (policy : Policy) (pool : CapitalPool)
      (resolver auth : Nat) (approve : Bool) (notes : String) (now : Int)
      (r : ResolveResult)
      (h : resolve_claim claim policy pool resolver auth approve notes now = some r)
      (hok : r.result = none) : PoolStep pool r.pool

/-- A pool state reachable by some sequence of successful operations from a
pool created by `initialize_capital_pool`. -/
def poolReachable (p : CapitalPool) : Prop :=
  ∃ pt y tm ta au b p0,
    initialize_capital_pool pt y tm ta au b = Except.ok p0 ∧
    Relation.ReflTransGen PoolStep p0 p

/-- Capital-conservation bookkeeping invariant of a pool. -/
def PoolInv (p : CapitalPool) : Prop :=
  p.total_capital = p.available_capital + p.reserved_capital

/-- Every successful operation preserves the capital-conservation invariant. -/
theorem poolStep_preserves_inv {p p' : CapitalPool} (hstep : PoolStep p p')
    (hinv : PoolInv p) : PoolInv p' := by
  unfold PoolInv at hinv ⊢
  cases hstep with
  | provide _ pool_key owner amount now bump prov _ h =>
      unfold provide_capital at h
      cases ht : checkedAdd p.total_capital amount with
      | none => rw [ht] at h; cases h
      | some t =>
        cases ha : checkedAdd p.available_capital amount with
        | none => rw [ht, ha] at h; cases h
        | some a =>
          rw [ht, ha] at h
          simp only [Option.some.injEq, Prod.mk.injEq] at h
          obtain ⟨-, hpool⟩ := h
          obtain ⟨rfl, -⟩ := checkedAdd_eq_some ht
          obtain ⟨rfl, -⟩ := checkedAdd_eq_some ha
          subst hpool
          simp only []
          omega
  | withdraw provider _ amount now r h hok =>
      unfold withdraw_capital at h
      cases hre : checkedAdd provider.rewards_earned (accruedRewards provider p now) with
      | none => rw [hre] at h; cases h
      | some re =>
        rw [hre] at h
        simp only [] at h
        split_ifs at h with h1 h2
        · rw [← (Option.some.inj h)] at hok; cases hok
        · rw [← (Option.some.inj h)] at hok; cases hok
        · cases hc : checkedSub provider.capital_amount amount with
          | none => rw [hc] at h; cases h
          | some capital =>
            cases htot : checkedSub p.total_capital amount with
            | none => rw [hc, htot] at h; cases h
            | some total =>
              cases hav : checkedSub p.available_capital amount with
              | none => rw [hc, htot, hav] at h; cases h
              | some avail =>
                rw [hc, htot, hav] at h
                obtain ⟨rfl, -⟩ := checkedSub_eq_some htot
                obtain ⟨rfl, hle⟩ := checkedSub_eq_some hav
                simp only [] at h
                split_ifs at h with hz
                · rw [← (Option.some.inj h)]
                  simp only []
                  omega
                · rw [← (Option.some.inj h)]
                  simp only []
                  omega
  | resolve claim policy _ resolver auth approve notes now r h hok =>
      unfold resolve_claim at h
      split_ifs at h with h1 h2 h3 h4
      · rw [← (Option.some.inj h)] at hok; cases hok
      · rw [← (Option.some.inj h)] at hok; cases hok
      · rw [← (Option.some.inj h)] at hok; cases hok
      · cases hav : checkedSub p.available_capital claim.amount with
        | none => rw [hav] at h; cases h
        | some avail =>
          cases hres : checkedAdd p.reserved_capital claim.amount with
          | none => rw [hav, hres] at h; cases h
          | some reserved =>
            rw [hav, hres] at h
            obtain ⟨rfl, hle⟩ := checkedSub_eq_some hav
            obtain ⟨rfl, -⟩ := checkedAdd_eq_some hres
            rw [← (Option.some.inj h)]
            simp only []
            omega
      · rw [← (Option.some.inj h)]
        simpa using hinv

/-- A pool freshly created by `initialize_capital_pool` has zeroed balances. -/
theorem initialize_capital_pool_zeroed {pt y tm ta au b : Nat} {p : CapitalPool}
    (h : initialize_capital_pool pt y tm ta au b = Except.ok p) :
    p.total_capital = 0 ∧ p.available_capital = 0 ∧ p.reserved_capital = 0 := by
  unfold initialize_capital_pool at h
  split_ifs at h with h1
  cases h
  exact ⟨rfl, rfl, rfl⟩

/-- C1: starting from the zeroed pool created by `initialize_capital_pool`,
every pool state reachable through successful `provide_capital`,
`withdraw_capital` and `resolve_claim` (approval) operations satisfies
`total_capital = available_capital + reserved_capital`, and therefore also
`available_capital ≤ total_capital`; in particular both equations hold
immediately after every successful such operation. -/
theorem C1_capital_conservation (p : CapitalPool) (h : poolReachable p) :
    p.total_capital = p.available_capital + p.reserved_capital ∧
    p.available_capital ≤ p.total_capital := by
  obtain ⟨pt, y, tm, ta, au, b, p0, hinit, hreach⟩ := h
  obtain ⟨h1, h2, h3⟩ := initialize_capital_pool_zeroed hinit
  have hinv : PoolInv p := by
    induction hreach with
    | refl => unfold PoolInv; omega
    | tail _ hstep ih => exact poolStep_preserves_inv hstep ih
  unfold PoolInv at hinv
  exact ⟨hinv, by omega⟩

/-- Witness for C1: the freshly initialized low-risk pool is reachable and
satisfies both invariant conjuncts. -/
theorem C1_capital_conservation_witness :
    (⟨1, 0, 0, 0, 500, 2, 3, 4, 5⟩ : CapitalPool).total_capital =
        (⟨1, 0, 0, 0, 500, 2, 3, 4, 5⟩ : CapitalPool).available_capital +
          (⟨1, 0, 0, 0, 500, 2, 3, 4, 5⟩ : CapitalPool).reserved_capital ∧
      (⟨1, 0, 0, 0, 500, 2, 3, 4, 5⟩ : CapitalPool).available_capital ≤
        (⟨1, 0, 0, 0, 500, 2, 3, 4, 5⟩ : CapitalPool).total_capital :=
  C1_capital_conservation ⟨1, 0, 0, 0, 500, 2, 3, 4, 5⟩
    ⟨1, 500, 2, 3, 4, 5, ⟨1, 0, 0, 0, 500, 2, 3, 4, 5⟩, rfl,
      Relation.ReflTransGen.refl⟩

/-- C4: when the protocol authority approves a Pending claim, the success path
(`claim.amount ≤ available_capital`) moves exactly `claim.amount` from
`available_capital` to `reserved_capital`, leaves `total_capital` and every
other pool field unchanged, and sets `policy.is_claimed`; when
`claim.amount > available_capital` it fails with `InsufficientPoolCapital`.
The bookkeeping hypotheses `total = available + reserved` and `total < 2^64`
hold in every reachable pool state (C1) and rule out `u64` overflow of
`reserved_capital + claim.amount`. -/
theorem C4_resolve_approve_effect (claim : Claim) (policy : Policy)
    (pool : CapitalPool) (auth : Nat) (notes : String) (now : Int)
    (hpending : claim.status = CLAIM_STATUS_PENDING)
    (hwf : pool.total_capital = pool.available_capital + pool.reserved_capital)
    (hbound : pool.total_capital < U64_MOD) :
    (claim.amount ≤ pool.available_capital →
      resolve_claim claim policy pool auth auth true notes now =
        some ⟨{ claim with
                  status := CLAIM_STATUS_APPROVED
                  resolution_time := now
                  resolver := auth
                  resolution_notes := notes },
              { policy with is_claimed := true },
              { pool with
                  available_capital := pool.available_capital - claim.amount
                  reserved_capital := pool.reserved_capital + claim.amount },
              none⟩) ∧
    (pool.available_capital < claim.amount →
      resolve_claim claim policy pool auth auth true notes now =
        some ⟨{ claim with
                  status := CLAIM_STATUS_APPROVED
                  resolution_time := now
                  resolver := auth
                  resolution_notes := notes },
              { policy with is_claimed := true },
              pool,
              some ErrorCode.InsufficientPoolCapital⟩) := by
  constructor
  · intro hle
    have hadd : pool.reserved_capital + claim.amount < U64_MOD := by omega
    unfold resolve_claim
    rw [if_neg (by simp), if_neg (by simp [hpending])]
    simp only [if_pos trivial, if_neg (by omega : ¬pool.available_capital < claim.amount),
      checkedSub_of_le hle, checkedAdd_of_lt hadd]
  · intro hlt
    unfold resolve_claim
    rw [if_neg (by simp), if_neg (by simp [hpending])]
    simp only [if_pos trivial, if_pos hlt]

/-- Witness for C4: concrete approval of a Pending 50-unit claim against a
pool with 100 available, and the refusal branch for the same records. -/
theorem C4_resolve_approve_effect_witness :
    ((⟨3, 1, 50, "", 0, 0, 0, 0, "", 0⟩ : Claim).amount ≤
        (⟨1, 100, 100, 0, 500, 2, 3, 9, 0⟩ : CapitalPool).available_capital →
      resolve_claim ⟨3, 1, 50, "", 0, 0, 0, 0, "", 0⟩
          ⟨1, 3, 100, 10, 0, 1000, true, false, 0⟩
          ⟨1, 100, 100, 0, 500, 2, 3, 9, 0⟩ 9 9 true "ok" 7 =
        some ⟨{ (⟨3, 1, 50, "", 0, 0, 0, 0, "", 0⟩ : Claim) with
                  status := CLAIM_STATUS_APPROVED
                  resolution_time := 7
                  resolver := 9
                  resolution_notes := "ok" },
              { (⟨1, 3, 100, 10, 0, 1000, true, false, 0⟩ : Policy) with
                  is_claimed := true },
              { (⟨1, 100, 100, 0, 500, 2, 3, 9, 0⟩ : CapitalPool) with
                  available_capital :=
                    (⟨1, 100, 100, 0, 500, 2, 3, 9, 0⟩ : CapitalPool).available_capital -
                      (⟨3, 1, 50, "", 0, 0, 0, 0, "", 0⟩ : Claim).amount
                  reserved_capital :=
                    (⟨1, 100, 100, 0, 500, 2, 3, 9, 0⟩ : CapitalPool).reserved_capital +
                      (⟨3, 1, 50, "", 0, 0, 0, 0, "", 0⟩ : Claim).amount },
              none⟩) ∧
    ((⟨1, 100, 100, 0, 500, 2, 3, 9, 0⟩ : CapitalPool).available_capital <
        (⟨3, 1, 50, "", 0, 0, 0, 0, "", 0⟩ : Claim).amount →
      resolve_claim ⟨3, 1, 50, "", 0, 0, 0, 0, "", 0⟩
          ⟨1, 3, 100, 10, 0, 1000, true, false, 0⟩
          ⟨1, 100, 100, 0, 500, 2, 3, 9, 0⟩ 9 9 true "ok" 7 =
        some ⟨{ (⟨3, 1, 50, "", 0, 0, 0, 0, "", 0⟩ : Claim) with
                  status := CLAIM_STATUS_APPROVED
                  resolution_time := 7
                  resolver := 9
                  resolution_notes := "ok" },
              { (⟨1, 3, 100, 10, 0, 1000, true, false, 0⟩ : Policy) with
                  is_claimed := true },
              ⟨1, 100, 100, 0, 500, 2, 3, 9, 0⟩,
              some ErrorCode.InsufficientPoolCapital⟩) :=
  C4_resolve_approve_effect ⟨3, 1, 50, "", 0, 0, 0, 0, "", 0⟩
    ⟨1, 3, 100, 10, 0, 1000, true, false, 0⟩ ⟨1, 100, 100, 0, 500, 2, 3, 9, 0⟩
    9 "ok" 7 rfl rfl (by decide)

/-- C9: when the protocol authority approves a Pending claim whose amount
exceeds `available_capital`, the function body has already set the claim's
status, resolution_time, resolver and resolution_notes and the policy's
`is_claimed` flag before the `InsufficientPoolCapital` check fails, so at the
function level the error return carries mutated claim and policy records while
the pool is untouched. -/
theorem C9_resolve_failure_partial_mutation (claim : Claim) (policy : Policy)
    (pool : CapitalPool) (auth : Nat) (notes : String) (now : Int)
    (hpending : claim.status = CLAIM_STATUS_PENDING)
    (hinsuf : pool.available_capital < claim.amount) :
    resolve_claim claim policy pool auth auth true notes now =
      some ⟨{ claim with
                status := CLAIM_STATUS_APPROVED
                resolution_time := now
                resolver := auth
                resolution_notes := notes },
            { policy with is_claimed := true },
            pool,
            some ErrorCode.InsufficientPoolCapital⟩ := by
  unfold resolve_claim
  rw [if_neg (by simp), if_neg (by simp [hpending])]
  simp only [if_pos trivial, if_pos hinsuf]

/-- Witness for C9: approving a Pending 500-unit claim against a pool with
only 100 available mutates the claim and policy but not the pool. -/
theorem C9_resolve_failure_partial_mutation_witness :
    resolve_claim ⟨3, 1, 500, "", 0, 0, 0, 0, "", 0⟩
        ⟨1, 3, 1000, 10, 0, 1000, true, false, 0⟩
        ⟨1, 100, 100, 0, 500, 2, 3, 9, 0⟩ 9 9 true "no" 7 =
      some ⟨{ (⟨3, 1, 500, "", 0, 0, 0, 0, "", 0⟩ : Claim) with
                status := CLAIM_STATUS_APPROVED
                resolution_time := 7
                resolver := 9
                resolution_notes := "no" },
            { (⟨1, 3, 1000, 10, 0, 1000, true, false, 0⟩ : Policy) with
                is_claimed := true },
            ⟨1, 100, 100, 0, 500, 2, 3, 9, 0⟩,
            some ErrorCode.InsufficientPoolCapital⟩ :=
  C9_resolve_failure_partial_mutation ⟨3, 1, 500, "", 0, 0, 0, 0, "", 0⟩
    ⟨1, 3, 1000, 10, 0, 1000, true, false, 0⟩ ⟨1, 100, 100, 0, 500, 2, 3, 9, 0⟩
    9 "no" 7 rfl (by decide)

/-- One successful (transaction-committed) mutation of an existing claim
record.  `resolve_claim` is the only operation of the program that writes an
existing claim; failed invocations are rolled back by the host. -/
inductive ClaimTxStep : Claim → Claim → Prop where
  | resolve (claim : Claim) (policy : Policy) (pool : CapitalPool)
      (resolver auth : Nat) (approve : Bool) (notes : String) (now : Int)
      (r : ResolveResult)
      (h : resolve_claim claim policy pool resolver auth approve notes now = some r)
      (hok : r.result = none) : ClaimTxStep claim r.claim

/-- `resolve_claim` on a claim that is not Pending never succeeds. -/
theorem resolve_claim_not_pending_fails (claim : Claim) (policy : Policy)
    (pool : CapitalPool) (resolver auth : Nat) (approve : Bool) (notes : String)
    (now : Int) (r : ResolveResult)
    (hst : claim.status ≠ CLAIM_STATUS_PENDING)
    (h : resolve_claim claim policy pool resolver auth approve notes now = some r) :
    r.result ≠ none := by
  unfold resolve_claim at h
  split_ifs at h with h1
  · rw [← (Option.some.inj h)]; simp
  · rw [← (Option.some.inj h)]; simp

/-- Counterexample to C5 as stated: on a claim whose status is Approved
(≠ Pending), `resolve_claim` invoked by a non-authority resolver fails with
`UnauthorizedResolver`, not `ClaimAlreadyResolved` — the authority check runs
first. -/
theorem C5_counterexample :
    (⟨3, 1, 50, "", 0, 1, 5, 9, "", 0⟩ : Claim).status ≠ CLAIM_STATUS_PENDING ∧
    resolve_claim ⟨3, 1, 50, "", 0, 1, 5, 9, "", 0⟩
        ⟨1, 3, 100, 10, 0, 1000, true, false, 0⟩
        ⟨1, 100, 100, 0, 500, 2, 3, 9, 0⟩ 5 7 true "" 10 =
      some ⟨⟨3, 1, 50, "", 0, 1, 5, 9, "", 0⟩,
            ⟨1, 3, 100, 10, 0, 1000, true, false, 0⟩,
            ⟨1, 100, 100, 0, 500, 2, 3, 9, 0⟩,
            some ErrorCode.UnauthorizedResolver⟩ ∧
    some ErrorCode.UnauthorizedResolver ≠ some ErrorCode.ClaimAlreadyResolved := by
  refine ⟨by decide, by decide, by decide⟩

/-- C5 (amended): a claim's status transitions at most once, from Pending to a
terminal state.  When the resolver is the protocol authority, `resolve_claim`
fails with `ClaimAlreadyResolved` whenever the claim is not Pending (a
non-authority resolver fails earlier with `UnauthorizedResolver`); in either
case the invocation fails, so no sequence of successful operations ever
changes a claim's status after it has left Pending. -/
theorem C5_claim_status_terminal :
    (∀ (claim : Claim) (policy : Policy) (pool : CapitalPool) (auth : Nat)
        (approve : Bool) (notes : String) (now : Int),
      claim.status ≠ CLAIM_STATUS_PENDING →
        resolve_claim claim policy pool auth auth approve notes now =
          some ⟨claim, policy, pool, some ErrorCode.ClaimAlreadyResolved⟩) ∧
    (∀ c c' : Claim, Relation.ReflTransGen ClaimTxStep c c' →
      c.status ≠ CLAIM_STATUS_PENDING → c' = c) := by
  constructor
  · intro claim policy pool auth approve notes now hst
    unfold resolve_claim
    rw [if_neg (by simp), if_pos (by simpa using hst)]
  · intro c c' hreach hst
    rcases (Relation.ReflTransGen.cases_head hreach) with heq | ⟨b, hstep, -⟩
    · exact heq.symm
    · exfalso
      cases hstep with
      | resolve policy pool resolver auth approve notes now r h hok =>
          exact resolve_claim_not_pending_fails c policy pool resolver auth
            approve notes now r hst h hok

/-- Witness for C5: an already-Approved claim resolved by the authority fails
with `ClaimAlreadyResolved` and is unchanged, and the reflexive reachability
instance keeps it unchanged. -/
theorem C5_claim_status_terminal_witness :
    resolve_claim ⟨3, 1, 50, "", 0, 1, 5, 9, "", 0⟩
        ⟨1, 3, 100, 10, 0, 1000, true, false, 0⟩
        ⟨1, 100, 100, 0, 500, 2, 3, 9, 0⟩ 9 9 true "" 10 =
      some ⟨⟨3, 1, 50, "", 0, 1, 5, 9, "", 0⟩,
            ⟨1, 3, 100, 10, 0, 1000, true, false, 0⟩,
            ⟨1, 100, 100, 0, 500, 2, 3, 9, 0⟩,
            some ErrorCode.ClaimAlreadyResolved⟩ ∧
    (⟨3, 1, 50, "", 0, 1, 5, 9, "", 0⟩ : Claim) = ⟨3, 1, 50, "", 0, 1, 5, 9, "", 0⟩ :=
  ⟨C5_claim_status_terminal.1 ⟨3, 1, 50, "", 0, 1, 5, 9, "", 0⟩
      ⟨1, 3, 100, 10, 0, 1000, true, false, 0⟩ ⟨1, 100, 100, 0, 500, 2, 3, 9, 0⟩
      9 true "" 10 (by decide),
    C5_claim_status_terminal.2 ⟨3, 1, 50, "", 0, 1, 5, 9, "", 0⟩
      ⟨3, 1, 50, "", 0, 1, 5, 9, "", 0⟩ Relation.ReflTransGen.refl (by decide)⟩

/-- Counterexample to C6 as stated: with provider capital 5, pool available 3
and requested amount 10 (which exceeds the provider's capital), the withdrawal
fails with `InsufficientPoolCapital`, not `InsufficientProviderCapital` — the
pool check runs first. -/
theorem C6_counterexample :
    (⟨1, 5, 7, 0, 0, 0⟩ : CapitalProvider).capital_amount < 10 ∧
    withdraw_capital ⟨1, 5, 7, 0, 0, 0⟩ ⟨1, 3, 3, 0, 0, 0, 0, 9, 0⟩ 10 0 =
      some ⟨⟨1, 5, 7, 0, 0, 0⟩, ⟨1, 3, 3, 0, 0, 0, 0, 9, 0⟩,
            some ErrorCode.InsufficientPoolCapital, false⟩ ∧
    some ErrorCode.InsufficientPoolCapital ≠
      some ErrorCode.InsufficientProviderCapital := by
  refine ⟨by decide, by decide, by decide⟩

/-- C6 (amended): `withdraw_capital` never succeeds when
`amount > provider.capital_amount` or `amount > pool.available_capital`; the
pool check runs first, so the error is `InsufficientPoolCapital` whenever
`amount > pool.available_capital` and `InsufficientProviderCapital` when only
the provider bound is violated; and a successful full withdrawal
(`amount = capital_amount`) retires the provider record with all its fields
zeroed and its storage reclaimed. -/
theorem C6_withdraw_bounds_and_retirement :
    (∀ (provider : CapitalProvider) (pool : CapitalPool) (amount : Nat)
        (now : Int) (r : WithdrawResult),
      withdraw_capital provider pool amount now = some r →
      provider.capital_amount < amount ∨ pool.available_capital < amount →
      r.result ≠ none) ∧
    (∀ (provider : CapitalProvider) (pool : CapitalPool) (amount : Nat)
        (now : Int) (r : WithdrawResult),
      withdraw_capital provider pool amount now = some r →
      pool.available_capital < amount →
      r.result = some ErrorCode.InsufficientPoolCapital) ∧
    (∀ (provider : CapitalProvider) (pool : CapitalPool) (amount : Nat)
        (now : Int) (r : WithdrawResult),
      withdraw_capital provider pool amount now = some r →
      amount ≤ pool.available_capital →
      provider.capital_amount < amount →
      r.result = some ErrorCode.InsufficientProviderCapital) ∧
    (∀ (provider : CapitalProvider) (pool : CapitalPool) (amount : Nat)
        (now : Int) (r : WithdrawResult),
      withdraw_capital provider pool amount now = some r →
      r.result = none →
      amount = provider.capital_amount →
      r.provider = zeroedProvider ∧ r.retired = true) := by
  refine ⟨?_, ?_, ?_, ?_⟩
  · intro provider pool amount now r h hbad
    unfold withdraw_capital at h
    cases hre : checkedAdd provider.rewards_earned (accruedRewards provider pool now) with
    | none => rw [hre] at h; cases h
    | some re =>
      rw [hre] at h
      simp only [] at h
      split_ifs at h with h1 h2
      · rw [← (Option.some.inj h)]; simp
      · rw [← (Option.some.inj h)]; simp
      · simp only [not_lt] at h1 h2
        omega
  · intro provider pool amount now r h hlt
    unfold withdraw_capital at h
    cases hre : checkedAdd provider.rewards_earned (accruedRewards provider pool now) with
    | none => rw [hre] at h; cases h
    | some re =>
      rw [hre] at h
      simp only [] at h
      split_ifs at h
      rw [← (Option.some.inj h)]
  · intro provider pool amount now r h hle hcap
    unfold withdraw_capital at h
    cases hre : checkedAdd provider.rewards_earned (accruedRewards provider pool now) with
    | none => rw [hre] at h; cases h
    | some re =>
      rw [hre] at h
      simp only [] at h
      split_ifs at h with h1
      · omega
      · rw [← (Option.some.inj h)]
  · intro provider pool amount now r h hok hfull
    unfold withdraw_capital at h
    cases hre : checkedAdd provider.rewards_earned (accruedRewards provider pool now) with
    | none => rw [hre] at h; cases h
    | some re =>
      rw [hre] at h
      simp only [] at h
      split_ifs at h with h1 h2
      · rw [← (Option.some.inj h)] at hok; cases hok
      · rw [← (Option.some.inj h)] at hok; cases hok
      · cases hc : checkedSub provider.capital_amount amount with
        | none => rw [hc] at h; cases h
        | some capital =>
          cases htot : checkedSub pool.total_capital amount with
          | none => rw [hc, htot] at h; cases h
          | some total =>
            cases hav : checkedSub pool.available_capital amount with
            | none => rw [hc, htot, hav] at h; cases h
            | some avail =>
              rw [hc, htot, hav] at h
              simp only [] at h
              obtain ⟨rfl, hle2⟩ := checkedSub_eq_some hc
              have hz : provider.capital_amount - amount = 0 := by omega
              rw [if_pos hz] at h
              rw [← (Option.some.inj h)]
              exact ⟨rfl, rfl⟩

/-- Witness for C6: a withdrawal of 10 against available 3 fails with
`InsufficientPoolCapital`, and a successful full withdrawal of 5 zeroes and
retires the provider record. -/
theorem C6_withdraw_bounds_and_retirement_witness :
    (some ErrorCode.InsufficientPoolCapital : Option ErrorCode) =
        some ErrorCode.InsufficientPoolCapital ∧
    (⟨zeroedProvider, ⟨1, 95, 95, 0, 0, 0, 0, 9, 0⟩, none, true⟩ :
        WithdrawResult).provider = zeroedProvider ∧
    (⟨zeroedProvider, ⟨1, 95, 95, 0, 0, 0, 0, 9, 0⟩, none, true⟩ :
        WithdrawResult).retired = true :=
  ⟨C6_withdraw_bounds_and_retirement.2.1 ⟨1, 5, 7, 0, 0, 0⟩
      ⟨1, 3, 3, 0, 0, 0, 0, 9, 0⟩ 10 0
      ⟨⟨1, 5, 7, 0, 0, 0⟩, ⟨1, 3, 3, 0, 0, 0, 0, 9, 0⟩,
        some ErrorCode.InsufficientPoolCapital, false⟩ (by decide) (by decide),
    C6_withdraw_bounds_and_retirement.2.2.2 ⟨1, 5, 7, 0, 0, 0⟩
      ⟨1, 100, 100, 0, 0, 0, 0, 9, 0⟩ 5 0
      ⟨zeroedProvider, ⟨1, 95, 95, 0, 0, 0, 0, 9, 0⟩, none, true⟩
      (by decide) (by decide) (by decide)⟩

/-- Counterexample to C2 as stated: depositing 1_000_000 at yield 500 bps and
withdrawing after exactly 2 days adds 272 to `rewards_earned`, not 274:
`(1_000_000*500/10000)/365 = 136` and `136*2 = 272` with truncation at each
step. -/
theorem C2_counterexample :
    withdraw_capital ⟨1, 1000000, 7, 0, 0, 0⟩
        ⟨1, 1000000000, 1000000000, 0, 500, 0, 0, 9, 0⟩ 100 172800 =
      some ⟨⟨1, 999900, 7, 272, 0, 0⟩,
            ⟨1, 999999900, 999999900, 0, 500, 0, 0, 9, 0⟩, none, false⟩ ∧
    (272 : Nat) ≠ 274 := by
  refine ⟨by decide, by decide⟩

/-- The yield accrued by `withdraw_capital` on a 1_000_000 deposit at
500 bps after exactly two days (172800 seconds) is 272. -/
theorem accruedRewards_two_days (provider : CapitalProvider) (pool : CapitalPool)
    (hy : pool.yield_rate_bps = 500) (hcap : provider.capital_amount = 1000000) :
    accruedRewards provider pool (provider.deposit_time + 172800) = 272 := by
  unfold accruedRewards
  rw [hy, hcap, add_sub_cancel_left]
  decide

/-- C2 (amended): a provider who deposits 1_000_000 into a pool with
`yield_rate_bps = 500` and withdraws after exactly 2 days held has exactly 272
added to `rewards_earned` by `withdraw_capital`, the yield being computed as
`(capital_amount * yield_rate_bps / 10000) / 365 * days_held` with integer
truncation at each step. -/
theorem C2_two_day_yield (provider : CapitalProvider) (pool : CapitalPool)
    (amount : Nat)
    (hy : pool.yield_rate_bps = 500) (hcap : provider.capital_amount = 1000000)
    (hr : provider.rewards_earned + 272 < U64_MOD)
    (hamt : amount < 1000000)
    (hav : amount ≤ pool.available_capital)
    (htot : amount ≤ pool.total_capital) :
    ∃ r : WithdrawResult,
      withdraw_capital provider pool amount (provider.deposit_time + 172800) =
        some r ∧
      r.result = none ∧
      r.provider.rewards_earned = provider.rewards_earned + 272 := by
  unfold withdraw_capital
  rw [accruedRewards_two_days provider pool hy hcap, checkedAdd_of_lt hr]
  simp only []
  rw [if_neg (by omega), if_neg (by omega),
    checkedSub_of_le (by omega : amount ≤ provider.capital_amount),
    checkedSub_of_le htot, checkedSub_of_le hav]
  simp only []
  rw [if_neg (by omega : ¬provider.capital_amount - amount = 0)]
  exact ⟨_, rfl, rfl, rfl⟩

/-- Witness for C2: the concrete two-day withdrawal of 100 out of 1_000_000
accrues exactly 272. -/
theorem C2_two_day_yield_witness :
    ∃ r : WithdrawResult,
      withdraw_capital ⟨1, 1000000, 7, 5, 0, 0⟩
          ⟨1, 1000000000, 1000000000, 0, 500, 0, 0, 9, 0⟩ 100
          ((⟨1, 1000000, 7, 5, 0, 0⟩ : CapitalProvider).deposit_time + 172800) =
        some r ∧
      r.result = none ∧
      r.provider.rewards_earned =
        (⟨1, 1000000, 7, 5, 0, 0⟩ : CapitalProvider).rewards_earned + 272 :=
  C2_two_day_yield ⟨1, 1000000, 7, 5, 0, 0⟩
    ⟨1, 1000000000, 1000000000, 0, 500, 0, 0, 9, 0⟩ 100 rfl rfl (by decide)
    (by decide) (by decide) (by decide)

/-- Counterexample to C3 as stated: `calculate_premium_amount(1_000_000, 50,
30)` returns 390, not 410: `(1_000_000*50/10000)/365 = 13` and `13*30 = 390`
with truncation at each division in that order. -/
theorem C3_counterexample :
    calculate_premium_amount 1000000 50 30 = 390 ∧ (390 : Nat) ≠ 410 := by
  refine ⟨by decide, by decide⟩

/-- C3 (amended): `calculate_premium_rate 49 = 50`, and
`calculate_premium_amount(1_000_000, 50, 30)` returns exactly 390, following
`coverage * rate_bps / 10000 / 365 * duration_days` with integer truncation at
each division in that order. -/
theorem C3_premium_pricing :
    calculate_premium_rate 49 = 50 ∧
    calculate_premium_amount 1000000 50 30 = 390 := by
  refine ⟨by decide, by decide⟩

/-- C7: `assess_code_risk(5,0,0)` is the mean `(0+100+0)/3 = 33` as claimed,
but the function is not total on all input triples: at `(0,0,100)` the three
factors are 100, 100 and 100, and their `u8` sum 300 overflows 8-bit
arithmetic, so the function aborts instead of returning the mean 100 (in a
build without overflow checks it would wrap to `44/3 = 14`, also not the
mean). -/
theorem C7_assess_code_risk_u8_overflow :
    assess_code_risk 5 0 0 = some 33 ∧
    assess_code_risk 0 0 100 = none ∧
    (100 + 100 + 100) / 3 = 100 := by
  refine ⟨by decide, by decide, by decide⟩

/-- C8: the yield computation of `withdraw_capital` is NOT checked: with
`capital_amount = 2^32` and `yield_rate_bps = 2^32` the unchecked `u64`
multiplication `capital_amount * yield_rate_bps` overflows (it equals exactly
`2^64`), wraps to 0, and the withdrawal of 1 unit after one day succeeds,
adding 0 to `rewards_earned` and changing state, instead of aborting. -/
theorem C8_withdraw_unchecked_yield_wraps :
    withdraw_capital ⟨1, 4294967296, 7, 0, 0, 0⟩
        ⟨1, 10, 10, 0, 4294967296, 0, 0, 9, 0⟩ 1 86400 =
      some ⟨⟨1, 4294967295, 7, 0, 0, 0⟩, ⟨1, 9, 9, 0, 4294967296, 0, 0, 9, 0⟩,
            none, false⟩ ∧
    4294967296 * 4294967296 = U64_MOD := by
  refine ⟨by decide, by decide⟩

/-- Counterexample to C10 as stated: withdrawing 999_998 immediately (day
floor 1) and then 1 after 10 days accrues 136 + 0 = 136 total rewards, while a
single withdrawal of the combined 999_999 after 10 days accrues 1360 — the
two-step path accrues strictly LESS here, because the second step's yield is
computed on the tiny remaining capital (whose annual yield truncates to 0). -/
theorem C10_counterexample :
    withdraw_capital ⟨1, 1000000, 7, 0, 0, 0⟩
        ⟨1, 1000000000, 1000000000, 0, 500, 0, 0, 9, 0⟩ 999998 0 =
      some ⟨⟨1, 2, 7, 136, 0, 0⟩,
            ⟨1, 999000002, 999000002, 0, 500, 0, 0, 9, 0⟩, none, false⟩ ∧
    withdraw_capital ⟨1, 2, 7, 136, 0, 0⟩
        ⟨1, 999000002, 999000002, 0, 500, 0, 0, 9, 0⟩ 1 864000 =
      some ⟨⟨1, 1, 7, 136, 0, 0⟩,
            ⟨1, 999000001, 999000001, 0, 500, 0, 0, 9, 0⟩, none, false⟩ ∧
    withdraw_capital ⟨1, 1000000, 7, 0, 0, 0⟩
        ⟨1, 1000000000, 1000000000, 0, 500, 0, 0, 9, 0⟩ 999999 864000 =
      some ⟨⟨1, 1, 7, 1360, 0, 0⟩,
            ⟨1, 999000001, 999000001, 0, 500, 0, 0, 9, 0⟩, none, false⟩ ∧
    ¬((136 : Nat) > 1360) := by
  refine ⟨by decide, by decide, by decide, by decide⟩

/-- C10 (amended): `withdraw_capital` never modifies `provider.deposit_time`
except when it zeroes the whole record on retirement, so every partial
withdrawal computes its yield over the full elapsed time since the original
`deposit_time` on the full current `capital_amount`; consequently two
successive partial withdrawals CAN accrue strictly more total
`rewards_earned` than a single withdrawal of the same combined amount at the
later time (witnessed below by 273 + 136 = 409 > 273), though not always. -/
theorem C10_deposit_time_frame_and_double_accrual :
    (∀ (provider : CapitalProvider) (pool : CapitalPool) (amount : Nat)
        (now : Int) (r : WithdrawResult),
      withdraw_capital provider pool amount now = some r →
      r.retired = false →
      r.provider.deposit_time = provider.deposit_time) ∧
    (withdraw_capital ⟨1, 2000000, 7, 0, 0, 0⟩
        ⟨1, 1000000000, 1000000000, 0, 500, 0, 0, 9, 0⟩ 1000000 86400 =
      some ⟨⟨1, 1000000, 7, 273, 0, 0⟩,
            ⟨1, 999000000, 999000000, 0, 500, 0, 0, 9, 0⟩, none, false⟩ ∧
    withdraw_capital ⟨1, 1000000, 7, 273, 0, 0⟩
        ⟨1, 999000000, 999000000, 0, 500, 0, 0, 9, 0⟩ 500000 86400 =
      some ⟨⟨1, 500000, 7, 409, 0, 0⟩,
            ⟨1, 998500000, 998500000, 0, 500, 0, 0, 9, 0⟩, none, false⟩ ∧
    withdraw_capital ⟨1, 2000000, 7, 0, 0, 0⟩
        ⟨1, 1000000000, 1000000000, 0, 500, 0, 0, 9, 0⟩ 1500000 86400 =
      some ⟨⟨1, 500000, 7, 273, 0, 0⟩,
            ⟨1, 998500000, 998500000, 0, 500, 0, 0, 9, 0⟩, none, false⟩ ∧
    (409 : Nat) > 273) := by
  constructor
  · intro provider pool amount now r h hret
    unfold withdraw_capital at h
    cases hre : checkedAdd provider.rewards_earned (accruedRewards provider pool now) with
    | none => rw [hre] at h; cases h
    | some re =>
      rw [hre] at h
      simp only [] at h
      split_ifs at h with h1 h2
      · rw [← (Option.some.inj h)]
      · rw [← (Option.some.inj h)]
      · cases hc : checkedSub provider.capital_amount amount with
        | none => rw [hc] at h; cases h
        | some capital =>
          cases htot : checkedSub pool.total_capital amount with
          | none => rw [hc, htot] at h; cases h
          | some total =>
            cases hav : checkedSub pool.available_capital amount with
            | none => rw [hc, htot, hav] at h; cases h
            | some avail =>
              rw [hc, htot, hav] at h
              simp only [] at h
              split_ifs at h with hz
              · rw [← (Option.some.inj h)] at hret; cases hret
              · rw [← (Option.some.inj h)]
  · refine ⟨by decide, by decide, by decide, by decide⟩

/-- Witness for C10: the concrete first partial withdrawal of the accrual
scenario keeps `deposit_time` unchanged. -/
theorem C10_deposit_time_frame_and_double_accrual_witness :
    (⟨⟨1, 1000000, 7, 273, 0, 0⟩,
      ⟨1, 999000000, 999000000, 0, 500, 0, 0, 9, 0⟩, none, false⟩ :
        WithdrawResult).provider.deposit_time =
      (⟨1, 2000000, 7, 0, 0, 0⟩ : CapitalProvider).deposit_time :=
  C10_deposit_time_frame_and_double_accrual.1 ⟨1, 2000000, 7, 0, 0, 0⟩
    ⟨1, 1000000000, 1000000000, 0, 500, 0, 0, 9, 0⟩ 1000000 86400
    ⟨⟨1, 1000000, 7, 273, 0, 0⟩,
      ⟨1, 999000000, 999000000, 0, 500, 0, 0, 9, 0⟩, none, false⟩
    (by decide) (by decide)
